import Mathlib

/-
Verification development for the homehub heating control system.

Shallow embedding of the control-and-scheduling engine:
  - onoff_controller.py   (OnOffController)
  - pid_controller.py     (PIDController)
  - schedule_manager.py   (TimeBlock, Schedule, OperatingMode, ModeManager)
  - heating_zone.py       (HeatingZone: staleness watchdog, setpoint updates)
  - heating_control.py    (namespace HC: the orchestrator's PIDController,
                           HeatingZone with pump protection, the control loop
                           and boiler aggregation)

Modelling conventions:
  - Python floats and wall-clock timestamps (time.time()) are modelled as
    rationals; the current time is passed explicitly as a parameter wherever
    the source calls time.time().
  - Logging calls, MQTT publishes and the thermal-performance analytics
    (ThermalPerformanceMonitor, whose state is never read by any control
    decision) are omitted; every field that feeds a control decision is kept.
  - Python None is modelled with Option; methods that mutate self are
    modelled as functions returning the updated state (paired with the
    return value where the source returns one).
  - The reason strings returned by pump protection are modelled by the
    inductive PumpReason, one constructor per distinct source message,
    carrying the numeric payload interpolated into the message.
-/

/-! ## onoff_controller.py -/

/-- State of OnOffController: hysteresis width (immutable) and the current
heating state. -/
structure OnOffController where
  hysteresis : ℚ
  is_heating : Bool
  deriving DecidableEq, Repr

/-- Embedding of OnOffController.calculate_output: hysteresis logic with
thresholds turn_on = setpoint - hysteresis and turn_off = setpoint; returns
the updated controller state and the output (100 when heating, else 0). -/
def OnOffController.calculate_output (c : OnOffController) (current_temp setpoint : ℚ) :
    OnOffController × ℚ :=
  let turn_on_threshold := setpoint - c.hysteresis
  let turn_off_threshold := setpoint
  let is_heating' : Bool :=
    if current_temp < turn_on_threshold then true
    else if current_temp > turn_off_threshold then false
    else c.is_heating
  ({ c with is_heating := is_heating' }, if is_heating' then 100 else 0)

/-- Embedding of OnOffController.reset: forces heating OFF. -/
def OnOffController.reset (c : OnOffController) : OnOffController :=
  { c with is_heating := false }

/-! ## pid_controller.py -/

/-- State of the standalone PIDController module: gains, output limits,
stored setpoint, integral, last error and last update time. -/
structure PIDController where
  kp : ℚ
  ki : ℚ
  kd : ℚ
  output_limits : ℚ × ℚ
  setpoint : ℚ
  integral : ℚ
  last_error : ℚ
  last_time : ℚ
  deriving DecidableEq, Repr

/-- Embedding of PIDController.calculate_output (pid_controller.py): computes
the PID terms, clamps the integral to plus or minus
(limits.2 - limits.1) / (2 * ki) (or 100 when ki = 0), clamps the output to
the configured limits, and updates the stored state. -/
def PIDController.calculate_output (c : PIDController) (current_temp setpoint now : ℚ) :
    PIDController × ℚ :=
  let dt0 := now - c.last_time
  let dt := if dt0 ≤ 0 then (1 : ℚ) / 100 else dt0
  let error := setpoint - current_temp
  let p_term := c.kp * error
  let integral1 := c.integral + error * dt
  let max_integral :=
    if c.ki ≠ 0 then (c.output_limits.2 - c.output_limits.1) / (2 * c.ki) else 100
  let integral2 := max (-max_integral) (min max_integral integral1)
  let i_term := c.ki * integral2
  let derivative := (error - c.last_error) / dt
  let d_term := c.kd * derivative
  let output_raw := p_term + i_term + d_term
  let output := max c.output_limits.1 (min c.output_limits.2 output_raw)
  ({ c with setpoint := setpoint, integral := integral2, last_error := error, last_time := now },
   output)

/-- Embedding of PIDController.reset: clears integral and last_error and
resets the time reference to now. -/
def PIDController.reset (c : PIDController) (now : ℚ) : PIDController :=
  { c with integral := 0, last_error := 0, last_time := now }

/-! ## schedule_manager.py -/

/-- Time block of a weekly schedule; times of day are minutes since midnight
(the source stores datetime.time values, compared with the usual order). -/
structure TimeBlock where
  start_time : ℕ
  end_time : ℕ
  setpoint : ℚ
  deriving DecidableEq, Repr

/-- Embedding of TimeBlock.contains: a block with start ≤ end matches
start ≤ t < end; a block with start > end crosses midnight and matches
t ≥ start or t < end. -/
def TimeBlock.contains (b : TimeBlock) (check_time : ℕ) : Bool :=
  if b.start_time ≤ b.end_time then
    decide (b.start_time ≤ check_time ∧ check_time < b.end_time)
  else
    decide (check_time ≥ b.start_time ∨ check_time < b.end_time)

/-- Weekly schedule: separate block lists for weekdays and weekends. -/
structure Schedule where
  weekday_blocks : List TimeBlock
  weekend_blocks : List TimeBlock
  deriving DecidableEq, Repr

/-- Point in time as the source consumes it: weekday (0 = Monday .. 6 =
Sunday, as Python weekday()), time of day in minutes since midnight, and an
absolute timestamp carrying the total order used by datetime comparison. -/
structure DateTime where
  weekday : ℕ
  timeOfDay : ℕ
  absTime : ℚ
  deriving DecidableEq, Repr

/-- First matching block of a list, as the lookup loop in
Schedule.get_setpoint_for_time iterates in declaration order. -/
def findBlockSetpoint : List TimeBlock → ℕ → Option ℚ
  | [], _ => none
  | b :: rest, t => if b.contains t then some b.setpoint else findBlockSetpoint rest t

/-- Embedding of Schedule.get_setpoint_for_time: selects weekend blocks when
weekday ≥ 5, returns the first matching block's setpoint, or none. -/
def Schedule.get_setpoint_for_time (s : Schedule) (dt : DateTime) : Option ℚ :=
  let is_weekend := dt.weekday ≥ 5
  let blocks := if is_weekend then s.weekend_blocks else s.weekday_blocks
  findBlockSetpoint blocks dt.timeOfDay

/-- Operating modes of a heating zone (schedule_manager.py OperatingMode). -/
inductive OperatingMode where
  | auto
  | comfort
  | manual
  | away
  | vacation
  | off
  | boost
  deriving DecidableEq, Repr

/-- State of a ModeManager: current mode, optional manual setpoint, optional
boost expiry (stored as the expiry instant's absolute timestamp) and the
mode recorded on entering Boost. -/
structure ModeManager where
  current_mode : OperatingMode
  manual_setpoint : Option ℚ
  boost_expires_at : Option ℚ
  previous_mode : Option OperatingMode
  deriving DecidableEq, Repr

/-- Embedding of ModeManager.get_effective_setpoint: first the lazy Boost
expiry check (when the mode is Boost, an expiry is set and now has reached
it, the mode is set to Auto — not to previous_mode — and the boost fields are
cleared), then the dispatch on the current mode.  Returns the updated manager
state and the effective setpoint (none meaning no setpoint / heating
disabled). -/
def ModeManager.get_effective_setpoint (m : ModeManager) (schedule : Schedule)
    (current_time : DateTime) (comfort_offset away_offset vacation_setpoint : ℚ) :
    ModeManager × Option ℚ :=
  let m1 :=
    if m.current_mode = OperatingMode.boost then
      match m.boost_expires_at with
      | some expiry =>
        if current_time.absTime ≥ expiry then
          { m with
            current_mode := OperatingMode.auto
            boost_expires_at := none
            manual_setpoint := none }
        else m
      | none => m
    else m
  match m1.current_mode with
  | OperatingMode.off => (m1, none)
  | OperatingMode.manual => (m1, m1.manual_setpoint)
  | OperatingMode.boost => (m1, m1.manual_setpoint)
  | OperatingMode.vacation => (m1, some vacation_setpoint)
  | OperatingMode.comfort =>
    (m1, (schedule.get_setpoint_for_time current_time).map (fun x => x + comfort_offset))
  | OperatingMode.away =>
    (m1, (schedule.get_setpoint_for_time current_time).map (fun x => x + away_offset))
  | OperatingMode.auto => (m1, schedule.get_setpoint_for_time current_time)

/-! ## heating_zone.py -/

/-- Pluggable controller of a heating zone: PID or ON/OFF, chosen once at
construction from configuration. -/
inductive Controller where
  | pid : PIDController → Controller
  | onoff : OnOffController → Controller
  deriving DecidableEq, Repr

/-- Dispatch of controller.reset() over the two variants. -/
def Controller.reset (c : Controller) (now : ℚ) : Controller :=
  match c with
  | Controller.pid p => Controller.pid (p.reset now)
  | Controller.onoff o => Controller.onoff o.reset

/-- State of heating_zone.py HeatingZone: temperatures, setpoint, the
controller, pump state, sensor-staleness watchdog fields (SR-SF-007) and
maximum-runtime fields (SR-SF-008). -/
structure HeatingZone where
  current_temp : Option ℚ
  outside_temp : Option ℚ
  setpoint : ℚ
  controller : Controller
  pump_state : Bool
  pump_duty_cycle : ℚ
  last_temp_update_time : Option ℚ
  sensor_timeout_minutes : ℚ
  pump_on_start_time : Option ℚ
  max_runtime_hours : ℚ
  deriving DecidableEq, Repr

/-- Embedding of HeatingZone.update_temperature: stores the reading and
records the update timestamp for staleness detection. -/
def HeatingZone.update_temperature (z : HeatingZone) (new_temp now : ℚ) : HeatingZone :=
  { z with current_temp := some new_temp, last_temp_update_time := some now }

/-- Embedding of HeatingZone.update_setpoint.  The source assigns
self.setpoint = new_setpoint first and only afterwards compares
abs(new_setpoint - self.setpoint) > 1.0 to decide whether to reset the
controller; the comparison therefore reads the already-overwritten field.
The assignment order is kept verbatim here. -/
def HeatingZone.update_setpoint (z : HeatingZone) (new_setpoint now : ℚ) : HeatingZone :=
  if new_setpoint ≠ z.setpoint then
    let z1 := { z with setpoint := new_setpoint }
    if |new_setpoint - z1.setpoint| > 1 then
      { z1 with controller := z1.controller.reset now }
    else z1
  else z

/-- Embedding of HeatingZone.is_sensor_stale (SR-SF-007): true when no update
was ever received, otherwise true when the elapsed minutes since the last
update exceed sensor_timeout_minutes. -/
def HeatingZone.is_sensor_stale (z : HeatingZone) (now : ℚ) : Bool :=
  match z.last_temp_update_time with
  | none => true
  | some t => decide ((now - t) / 60 > z.sensor_timeout_minutes)

/-- Embedding of HeatingZone.is_runtime_exceeded (SR-SF-008). -/
def HeatingZone.is_runtime_exceeded (z : HeatingZone) (now : ℚ) : Bool :=
  if z.pump_state = false then false
  else
    match z.pump_on_start_time with
    | none => false
    | some t => decide ((now - t) / 3600 ≥ z.max_runtime_hours)

/-! ## heating_control.py -/

namespace HC

/-- State of heating_control.py PIDController (the orchestrator's own PID,
with a stored setpoint and output limits defaulting to (0, 1)). -/
structure PIDController where
  kp : ℚ
  ki : ℚ
  kd : ℚ
  setpoint : ℚ
  output_limits : ℚ × ℚ
  integral : ℚ
  last_error : ℚ
  last_time : ℚ
  deriving DecidableEq, Repr

/-- Embedding of heating_control.py PIDController.update: same algorithm as
the standalone module but the error is computed against the stored setpoint. -/
def PIDController.update (c : PIDController) (measurement now : ℚ) : PIDController × ℚ :=
  let dt0 := now - c.last_time
  let dt := if dt0 ≤ 0 then (1 : ℚ) / 100 else dt0
  let error := c.setpoint - measurement
  let p_term := c.kp * error
  let integral1 := c.integral + error * dt
  let max_integral :=
    if c.ki ≠ 0 then (c.output_limits.2 - c.output_limits.1) / (2 * c.ki) else 100
  let integral2 := max (-max_integral) (min max_integral integral1)
  let i_term := c.ki * integral2
  let derivative := (error - c.last_error) / dt
  let d_term := c.kd * derivative
  let output_raw := p_term + i_term + d_term
  let output := max c.output_limits.1 (min c.output_limits.2 output_raw)
  ({ c with integral := integral2, last_error := error, last_time := now }, output)

/-- Distinct reason messages returned by pump protection, one constructor per
source message, carrying the interpolated numeric payload (durations in
minutes). -/
inductive PumpReason where
  | firstStartup
  | initialState
  | mustStayOff (remaining : ℚ)
  | hasBeenOff (minutes : ℚ)
  | mustStayOn (remaining : ℚ)
  | hasBeenOn (minutes : ℚ)
  | noChange
  deriving DecidableEq, Repr

/-- State of heating_control.py HeatingZone: temperature state, the window
detection state, the PID controller, pump state with cycling-protection
timestamps, and the configured protection thresholds.  temp_history entries
are (temperature, timestamp) pairs in arrival order. -/
structure HeatingZone where
  current_temp : Option ℚ
  outside_temp : Option ℚ
  setpoint : ℚ
  temp_history : List (ℚ × ℚ)
  window_open : Bool
  window_open_time : Option ℚ
  window_detection_enabled : Bool
  window_detection_threshold_1min : ℚ
  window_detection_threshold_2min : ℚ
  pid : PIDController
  pump_state : Bool
  pump_duty_cycle : ℚ
  pump_on_time : Option ℚ
  pump_off_time : Option ℚ
  pump_last_on_time : Option ℚ
  pump_last_off_time : Option ℚ
  pump_manual_override : Bool
  pump_cycle_count : ℕ
  pump_cycle_hour_start : ℚ
  pump_min_on_minutes : ℚ
  pump_min_off_minutes : ℚ
  pump_duty_on_threshold : ℚ
  pump_duty_off_threshold : ℚ
  deriving DecidableEq, Repr

/-- Embedding of HeatingZone._get_temp_range: readings from the last
`seconds` seconds. -/
def HeatingZone.get_temp_range (z : HeatingZone) (now seconds : ℚ) : List (ℚ × ℚ) :=
  z.temp_history.filter (fun e => decide (e.2 ≥ now - seconds))

/-- Embedding of HeatingZone.detect_window_open: rapid-drop detection over
1-minute and 2-minute windows; returns the updated zone and the returned
boolean.  When detection is disabled the open state is cleared; with fewer
than 20 history samples (or fewer than 2 samples in a range) it returns
false without touching state. -/
def HeatingZone.detect_window_open (z : HeatingZone) (now : ℚ) : HeatingZone × Bool :=
  if z.window_detection_enabled = false then
    if z.window_open then
      ({ z with window_open := false, window_open_time := none }, false)
    else (z, false)
  else if z.temp_history.length < 20 then (z, false)
  else
    let recent_1min := z.get_temp_range now 60
    if recent_1min.length < 2 then (z, false)
    else
      let temp_drop_1min := recent_1min.headI.1 - recent_1min.getLastI.1
      let time_diff_1min := recent_1min.getLastI.2 - recent_1min.headI.2
      let rate_1min := temp_drop_1min / time_diff_1min * 60
      let recent_2min := z.get_temp_range now 120
      if recent_2min.length < 2 then (z, false)
      else
        let temp_drop_2min := recent_2min.headI.1 - recent_2min.getLastI.1
        let time_diff_2min := recent_2min.getLastI.2 - recent_2min.headI.2
        let rate_2min := temp_drop_2min / time_diff_2min * 60
        if rate_1min > z.window_detection_threshold_1min ∨
            rate_2min > z.window_detection_threshold_2min then
          if z.window_open = false then
            ({ z with window_open := true, window_open_time := some now }, true)
          else (z, true)
        else if z.window_open then
          if |rate_1min| < 1 / 10 ∧ |rate_2min| < 1 / 10 then
            ({ z with window_open := false, window_open_time := none }, false)
          else (z, true)
        else (z, false)

/-- Embedding of HeatingZone.calculate_control_output: 0 when no temperature
is known, otherwise the PID output. -/
def HeatingZone.calculate_control_output (z : HeatingZone) (now : ℚ) : HeatingZone × ℚ :=
  match z.current_temp with
  | none => (z, 0)
  | some t =>
    let r := z.pid.update t now
    ({ z with pid := r.1 }, r.2)

/-- Embedding of HeatingZone.set_pump_state: on a state change records the
transition timestamps (pump_on_time / pump_last_on_time and the cycle count
on turning ON; pump_off_time / pump_last_off_time and clearing pump_on_time
on turning OFF), records whether the change was manual, resets the hourly
cycle counter once an hour has elapsed, and finally stores the new state.
The thermal-monitor bookkeeping of the source (never read by any control
decision) is omitted. -/
def HeatingZone.set_pump_state (z : HeatingZone) (new_state manual : Bool) (now : ℚ) :
    HeatingZone :=
  if new_state ≠ z.pump_state then
    let z1 :=
      if new_state then
        { z with
          pump_on_time := some now
          pump_last_on_time := some now
          pump_cycle_count := z.pump_cycle_count + 1 }
      else
        { z with
          pump_off_time := some now
          pump_last_off_time := some now
          pump_on_time := none }
    let z2 := { z1 with pump_manual_override := manual }
    let hours_elapsed := (now - z2.pump_cycle_hour_start) / 3600
    let z3 :=
      if hours_elapsed ≥ 1 then
        { z2 with pump_cycle_count := 0, pump_cycle_hour_start := now }
      else z2
    { z3 with pump_state := new_state }
  else { z with pump_state := new_state }

/-- Embedding of HeatingZone.can_change_pump_state: minimum-dwell-time pump
protection.  Pure check — the source mutates nothing here; the pump state is
only changed by a separate set_pump_state call when the verdict is true. -/
def HeatingZone.can_change_pump_state (z : HeatingZone) (desired_state : Bool) (now : ℚ) :
    Bool × PumpReason :=
  if desired_state = true ∧ z.pump_state = false then
    match z.pump_last_off_time with
    | none => (true, PumpReason.firstStartup)
    | some tOff =>
      let off_duration_minutes := (now - tOff) / 60
      if off_duration_minutes < z.pump_min_off_minutes then
        (false, PumpReason.mustStayOff (z.pump_min_off_minutes - off_duration_minutes))
      else
        (true, PumpReason.hasBeenOff off_duration_minutes)
  else if desired_state = false ∧ z.pump_state = true then
    match z.pump_last_on_time with
    | none => (true, PumpReason.initialState)
    | some tOn =>
      let on_duration_minutes := (now - tOn) / 60
      if on_duration_minutes < z.pump_min_on_minutes then
        (false, PumpReason.mustStayOn (z.pump_min_on_minutes - on_duration_minutes))
      else
        (true, PumpReason.hasBeenOn on_duration_minutes)
  else (true, PumpReason.noChange)

/-- Derivation of the desired pump state from the duty cycle with deadband
hysteresis, as written inline in HeatingControl._run_control_loop: a request
to turn ON only when the duty exceeds the ON threshold and the pump is OFF, a
request to turn OFF only when the duty is below the OFF threshold and the
pump is ON, and no request (none) otherwise. -/
def desired_pump_state (pump_state : Bool) (duty_cycle on_threshold off_threshold : ℚ) :
    Option Bool :=
  if duty_cycle > on_threshold then
    if pump_state = false then some true else none
  else if duty_cycle < off_threshold then
    if pump_state = true then some false else none
  else none

/-- Per-zone body of HeatingControl._run_control_loop: window detection (an
open window forces the pump OFF, bypassing protection, and skips the rest),
otherwise PID duty computation, deadband state derivation, pump protection
and the realized state change.  Returns the updated zone and the zone's
contribution to any_zone_active (realized pump ON, or duty above the ON
threshold). -/
def HeatingZone.control_loop_zone_step (z : HeatingZone) (now : ℚ) : HeatingZone × Bool :=
  let dw := z.detect_window_open now
  let z0 := dw.1
  if dw.2 then
    (if z0.pump_state then z0.set_pump_state false false now else z0, false)
  else
    let co := z0.calculate_control_output now
    let duty_cycle := co.2
    let z1 := { co.1 with pump_duty_cycle := duty_cycle }
    let z2 :=
      match desired_pump_state z1.pump_state duty_cycle
          z1.pump_duty_on_threshold z1.pump_duty_off_threshold with
      | some d => if (z1.can_change_pump_state d now).1 then z1.set_pump_state d false now else z1
      | none => z1
    (z2, z2.pump_state || decide (duty_cycle > z2.pump_duty_on_threshold))

/-- Orchestrator state: the zone registry (insertion-ordered, as the source's
dict) and the boiler state. -/
structure HeatingControl where
  zones : List (String × HeatingZone)
  boiler_active : Bool
  boiler_on_time : Option ℚ
  deriving DecidableEq, Repr

/-- Embedding of HeatingControl._set_boiler_state: no-op when the commanded
state equals the current one, otherwise stores the new state and records
boiler_on_time on turning ON (clearing it on turning OFF).  The MQTT
publishes and the heartbeat timer management are omitted. -/
def HeatingControl.set_boiler_state (s : HeatingControl) (active : Bool) (now : ℚ) :
    HeatingControl :=
  if active = s.boiler_active then s
  else
    let s1 := { s with boiler_active := active }
    if active then { s1 with boiler_on_time := some now }
    else { s1 with boiler_on_time := none }

/-- Embedding of one tick of HeatingControl._run_control_loop: every zone is
processed by control_loop_zone_step, any_zone_active collects the zones'
contributions, and the boiler is commanded accordingly. -/
def HeatingControl.run_control_loop (s : HeatingControl) (now : ℚ) : HeatingControl :=
  let processed := s.zones.map (fun p => (p.1, HeatingZone.control_loop_zone_step p.2 now))
  let any_zone_active := processed.any (fun p => p.2.2)
  HeatingControl.set_boiler_state
    { s with zones := processed.map (fun p => (p.1, p.2.1)) } any_zone_active now

end HC

/-! ## Theorems -/

/-- C6: TimeBlock.contains matches t ≥ start or t < end for a
midnight-crossing block (start > end) and start ≤ t < end otherwise; in
particular block(22:00, 06:00) contains 23:00 and 02:00 but not 12:00, and
block(06:00, 22:00) contains 12:00 but not 23:00. -/
theorem timeblock_contains_spec :
    (∀ (b : TimeBlock) (t : ℕ),
      (b.start_time > b.end_time →
        (b.contains t = true ↔ t ≥ b.start_time ∨ t < b.end_time)) ∧
      (b.start_time ≤ b.end_time →
        (b.contains t = true ↔ b.start_time ≤ t ∧ t < b.end_time))) ∧
    (TimeBlock.mk 1320 360 18).contains 1380 = true ∧
    (TimeBlock.mk 1320 360 18).contains 120 = true ∧
    (TimeBlock.mk 1320 360 18).contains 720 = false ∧
    (TimeBlock.mk 360 1320 21).contains 720 = true ∧
    (TimeBlock.mk 360 1320 21).contains 1380 = false := by
  refine ⟨fun b t => ⟨fun hgt => ?_, fun hle => ?_⟩, by decide, by decide, by decide,
    by decide, by decide⟩
  · unfold TimeBlock.contains
    rw [if_neg (not_le.mpr hgt)]
    simp
  · unfold TimeBlock.contains
    rw [if_pos hle]
    simp

/-- Witness for C6 at the midnight-crossing block 22:00-06:00 and t = 23:00. -/
theorem timeblock_contains_spec_witness :
    (TimeBlock.mk 1320 360 18).start_time > (TimeBlock.mk 1320 360 18).end_time ∧
    ((TimeBlock.mk 1320 360 18).contains 1380 = true ↔ 1380 ≥ 1320 ∨ 1380 < 360) :=
  ⟨by decide, (timeblock_contains_spec.1 (TimeBlock.mk 1320 360 18) 1380).1 (by decide)⟩

/-- C9: the hysteresis controller turns ON below setpoint - hysteresis, OFF
above setpoint, retains the previous state inside the dead-band, and outputs
100 exactly when the resulting state is ON (for a nonnegative hysteresis
width, under which the two thresholds cannot overlap). -/
theorem onoff_calculate_output_spec (c : OnOffController) (m s : ℚ)
    (hh : 0 ≤ c.hysteresis) :
    (m < s - c.hysteresis → (c.calculate_output m s).1.is_heating = true) ∧
    (m > s → (c.calculate_output m s).1.is_heating = false) ∧
    (s - c.hysteresis ≤ m → m ≤ s → (c.calculate_output m s).1.is_heating = c.is_heating) ∧
    (c.calculate_output m s).2 =
      (if (c.calculate_output m s).1.is_heating then 100 else 0) := by
  refine ⟨fun h1 => ?_, fun h2 => ?_, fun h3 h4 => ?_, ?_⟩
  · simp only [OnOffController.calculate_output]
    rw [if_pos h1]
  · have hno : ¬(m < s - c.hysteresis) :=
      not_lt.mpr (le_of_lt (lt_of_le_of_lt (sub_le_self s hh) h2))
    simp only [OnOffController.calculate_output]
    rw [if_neg hno, if_pos h2]
  · simp only [OnOffController.calculate_output]
    rw [if_neg (not_lt.mpr h3), if_neg (not_lt.mpr h4)]
  · rfl

/-- Witness for C9: with setpoint 20 and hysteresis 0.5, a measurement of
19.4 °C turns heating ON. -/
theorem onoff_calculate_output_spec_witness :
    (0 : ℚ) ≤ (OnOffController.mk (1/2) false).hysteresis ∧
    ((97/5 : ℚ) < 20 - (OnOffController.mk (1/2) false).hysteresis) ∧
    ((OnOffController.mk (1/2) false).calculate_output (97/5) 20).1.is_heating = true := by
  refine ⟨by norm_num, by norm_num, ?_⟩
  exact (onoff_calculate_output_spec (OnOffController.mk (1/2) false) (97/5) 20
    (by norm_num)).1 (by norm_num)

/-- Clamping to the interval from -M to M (in the source's max/min idiom)
bounds the absolute value by the absolute value of M. -/
theorem abs_clamp_le (M x : ℚ) : |max (-M) (min M x)| ≤ |M| := by
  rw [abs_le]
  constructor
  · exact le_trans (neg_le_neg (le_abs_self M)) (le_max_left _ _)
  · exact max_le ((le_abs_self (-M)).trans_eq (abs_neg M))
      (le_trans (min_le_left M x) (le_abs_self M))

/-- C8: after any call to the PID update — for any incoming state, so after
arbitrarily many preceding calls — the stored integral is bounded by
(output_limits.2 - output_limits.1) / (2 ki) when ki ≠ 0 (provided that
bound is nonnegative, as with the deployed limits (0, 100) or (0, 1) and
positive ki), and by the fixed cap 100 when ki = 0; this holds for both the
standalone pid_controller.py update and the orchestrator's own PID. -/
theorem pid_integral_clamp (c : PIDController) (t sp now : ℚ)
    (c2 : HC.PIDController) (m now2 : ℚ) :
    (c.ki ≠ 0 → 0 ≤ (c.output_limits.2 - c.output_limits.1) / (2 * c.ki) →
      |((c.calculate_output t sp now).1).integral| ≤
        (c.output_limits.2 - c.output_limits.1) / (2 * c.ki)) ∧
    (c.ki = 0 → |((c.calculate_output t sp now).1).integral| ≤ 100) ∧
    (c2.ki ≠ 0 → 0 ≤ (c2.output_limits.2 - c2.output_limits.1) / (2 * c2.ki) →
      |((c2.update m now2).1).integral| ≤
        (c2.output_limits.2 - c2.output_limits.1) / (2 * c2.ki)) ∧
    (c2.ki = 0 → |((c2.update m now2).1).integral| ≤ 100) := by
  obtain ⟨x, hx⟩ : ∃ x, ((c.calculate_output t sp now).1).integral =
      max (-(if c.ki ≠ 0 then (c.output_limits.2 - c.output_limits.1) / (2 * c.ki) else 100))
        (min (if c.ki ≠ 0 then (c.output_limits.2 - c.output_limits.1) / (2 * c.ki) else 100)
          x) := ⟨_, rfl⟩
  obtain ⟨y, hy⟩ : ∃ y, ((c2.update m now2).1).integral =
      max (-(if c2.ki ≠ 0 then (c2.output_limits.2 - c2.output_limits.1) / (2 * c2.ki) else 100))
        (min (if c2.ki ≠ 0 then (c2.output_limits.2 - c2.output_limits.1) / (2 * c2.ki) else 100)
          y) := ⟨_, rfl⟩
  refine ⟨fun hki hnn => ?_, fun hki => ?_, fun hki hnn => ?_, fun hki => ?_⟩
  · rw [hx, if_pos hki]
    exact (abs_clamp_le _ _).trans_eq (abs_of_nonneg hnn)
  · rw [hx, if_neg (not_not_intro hki)]
    exact (abs_clamp_le _ _).trans_eq (by norm_num)
  · rw [hy, if_pos hki]
    exact (abs_clamp_le _ _).trans_eq (abs_of_nonneg hnn)
  · rw [hy, if_neg (not_not_intro hki)]
    exact (abs_clamp_le _ _).trans_eq (by norm_num)

/-- Witness for C8 at ki = 1/10 and limits (0, 100) for the standalone PID
and ki = 0 for the orchestrator PID. -/
theorem pid_integral_clamp_witness :
    ((1/10 : ℚ) ≠ 0) ∧
    ((0:ℚ) ≤ (100 - 0) / (2 * (1/10))) ∧
    |(((PIDController.mk 5 (1/10) 1 (0, 100) 20 0 0 70).calculate_output 18 20 100).1).integral|
      ≤ (100 - 0) / (2 * (1/10)) ∧
    |(((HC.PIDController.mk 5 0 1 20 (0, 1) 0 0 70).update 18 100).1).integral| ≤ 100 := by
  have h := pid_integral_clamp (PIDController.mk 5 (1/10) 1 (0, 100) 20 0 0 70) 18 20 100
    (HC.PIDController.mk 5 0 1 20 (0, 1) 0 0 70) 18 100
  exact ⟨by norm_num, by norm_num, h.1 (by norm_num) (by norm_num), h.2.2.2 rfl⟩

/-- Zone of heating_zone.py that has never received a temperature update. -/
def c2zone : HeatingZone :=
  { current_temp := none
    outside_temp := none
    setpoint := 20
    controller := Controller.onoff (OnOffController.mk (1/2) false)
    pump_state := false
    pump_duty_cycle := 0
    last_temp_update_time := none
    sensor_timeout_minutes := 20
    pump_on_start_time := none
    max_runtime_hours := 6 }

/-- C2 counterexample: a zone whose last_temp_update_time is unset IS
classified as stale by is_sensor_stale, contradicting the claimed cold-start
exemption. -/
theorem is_sensor_stale_none_counterexample :
    c2zone.last_temp_update_time = none ∧ c2zone.is_sensor_stale 0 = true := by
  exact ⟨rfl, rfl⟩

/-- C2 (amended): a zone that has never received a temperature update is
classified as stale; a zone that has received one is stale exactly when the
elapsed minutes since the update exceed sensor_timeout_minutes. -/
theorem is_sensor_stale_spec (z : HeatingZone) (now : ℚ) :
    (z.last_temp_update_time = none → z.is_sensor_stale now = true) ∧
    (∀ t, z.last_temp_update_time = some t →
      (z.is_sensor_stale now = true ↔ (now - t) / 60 > z.sensor_timeout_minutes)) := by
  constructor
  · intro h
    simp [HeatingZone.is_sensor_stale, h]
  · intro t h
    simp [HeatingZone.is_sensor_stale, h]

/-- Witness for C2 (amended): a fresh update at time 0 checked after 30
minutes with a 20-minute timeout is stale. -/
theorem is_sensor_stale_spec_witness :
    ({ c2zone with last_temp_update_time := some 0 } : HeatingZone).last_temp_update_time
      = some 0 ∧
    (({ c2zone with last_temp_update_time := some 0 } : HeatingZone).is_sensor_stale 1800
      = true ↔
      ((1800 : ℚ) - 0) / 60 >
        ({ c2zone with last_temp_update_time := some 0 } : HeatingZone).sensor_timeout_minutes) :=
  ⟨rfl, (is_sensor_stale_spec { c2zone with last_temp_update_time := some 0 } 1800).2 0 rfl⟩

/-- C10: HeatingZone.update_setpoint only overwrites the setpoint field; the
controller (and every other field) is left unchanged for every new setpoint,
because the significant-change comparison reads the already-overwritten
setpoint and so never triggers controller.reset. -/
theorem update_setpoint_frame (z : HeatingZone) (new_setpoint now : ℚ) :
    z.update_setpoint new_setpoint now = { z with setpoint := new_setpoint } := by
  obtain ⟨ct, ot, sp, ctrl, ps, pdc, ltu, stm, pos, mrh⟩ := z
  by_cases h : new_setpoint = sp
  · subst h
    simp [HeatingZone.update_setpoint]
  · simp [HeatingZone.update_setpoint, h]

/-- C5: pump protection permits an ON request while OFF exactly when the pump
never turned off before or at least pump_min_off_minutes have elapsed since
pump_last_off_time; an OFF request while ON exactly when the pump never
turned on before or at least pump_min_on_minutes have elapsed since
pump_last_on_time; a request for the current state is always permitted; and
every denial carries a distinguishable blocking reason with the remaining
dwell time.  The check itself is pure (the source mutates nothing here), so
the pump state is unchanged by a denial. -/
theorem can_change_pump_state_spec (z : HC.HeatingZone) (desired : Bool) (now : ℚ) :
    ((desired = true ∧ z.pump_state = false) →
      ((z.can_change_pump_state desired now).1 = true ↔
        z.pump_last_off_time = none ∨
        ∃ t, z.pump_last_off_time = some t ∧ z.pump_min_off_minutes ≤ (now - t) / 60)) ∧
    ((desired = false ∧ z.pump_state = true) →
      ((z.can_change_pump_state desired now).1 = true ↔
        z.pump_last_on_time = none ∨
        ∃ t, z.pump_last_on_time = some t ∧ z.pump_min_on_minutes ≤ (now - t) / 60)) ∧
    (desired = z.pump_state →
      z.can_change_pump_state desired now = (true, HC.PumpReason.noChange)) ∧
    ((z.can_change_pump_state desired now).1 = false →
      ∃ r, (z.can_change_pump_state desired now).2 = HC.PumpReason.mustStayOff r ∨
        (z.can_change_pump_state desired now).2 = HC.PumpReason.mustStayOn r) := by
  refine ⟨?_, ?_, ?_, ?_⟩
  · rintro ⟨hd, hp⟩
    subst hd
    unfold HC.HeatingZone.can_change_pump_state
    rw [if_pos ⟨rfl, hp⟩]
    rcases hoff : z.pump_last_off_time with _ | t
    · simp
    · simp only
      split_ifs with hlt
      · simp [not_le.mpr hlt]
      · simp [not_lt.mp hlt]
  · rintro ⟨hd, hp⟩
    subst hd
    unfold HC.HeatingZone.can_change_pump_state
    rw [if_neg (by simp), if_pos ⟨rfl, hp⟩]
    rcases hon : z.pump_last_on_time with _ | t
    · simp
    · simp only
      split_ifs with hlt
      · simp [not_le.mpr hlt]
      · simp [not_lt.mp hlt]
  · intro hd
    unfold HC.HeatingZone.can_change_pump_state
    rw [if_neg (by rw [hd]; rintro ⟨h1, h2⟩; rw [h1] at h2; exact Bool.noConfusion h2),
      if_neg (by rw [hd]; rintro ⟨h1, h2⟩; rw [h1] at h2; exact Bool.noConfusion h2)]
  · unfold HC.HeatingZone.can_change_pump_state
    split_ifs with h1 h2
    · rcases hoff : z.pump_last_off_time with _ | t
      · simp
      · simp only
        split_ifs with hlt
        · intro _
          exact ⟨z.pump_min_off_minutes - (now - t) / 60, Or.inl rfl⟩
        · simp
    · rcases hon : z.pump_last_on_time with _ | t
      · simp
      · simp only
        split_ifs with hlt
        · intro _
          exact ⟨z.pump_min_on_minutes - (now - t) / 60, Or.inr rfl⟩
        · simp
    · simp

/-- Zone of the orchestrator whose pump turned off at time 0, queried at time
6000 (100 minutes later, beyond the 10-minute minimum OFF dwell). -/
def c5zone : HC.HeatingZone :=
  { current_temp := some 18
    outside_temp := none
    setpoint := 20
    temp_history := []
    window_open := false
    window_open_time := none
    window_detection_enabled := false
    window_detection_threshold_1min := 3/10
    window_detection_threshold_2min := 1/5
    pid := HC.PIDController.mk 5 (1/10) 1 20 (0, 1) 0 0 0
    pump_state := false
    pump_duty_cycle := 0
    pump_on_time := none
    pump_off_time := some 0
    pump_last_on_time := none
    pump_last_off_time := some 0
    pump_manual_override := false
    pump_cycle_count := 0
    pump_cycle_hour_start := 0
    pump_min_on_minutes := 10
    pump_min_off_minutes := 10
    pump_duty_on_threshold := 3/10
    pump_duty_off_threshold := 1/20 }

/-- Witness for C5: an ON request 100 minutes after the pump turned off is
permitted by the first clause of the protection contract. -/
theorem can_change_pump_state_spec_witness :
    (true = true ∧ c5zone.pump_state = false) ∧
    ((c5zone.can_change_pump_state true 6000).1 = true ↔
      c5zone.pump_last_off_time = none ∨
      ∃ t, c5zone.pump_last_off_time = some t ∧
        c5zone.pump_min_off_minutes ≤ ((6000 : ℚ) - t) / 60) :=
  ⟨⟨rfl, rfl⟩, (can_change_pump_state_spec c5zone true 6000).1 ⟨rfl, rfl⟩⟩

/-- C3: when the effective setpoint is evaluated in Boost mode with an expiry
that now has reached, the manager reverts to Auto (never to previous_mode,
which is left untouched), clears boost_expires_at and manual_setpoint, and
the same evaluation returns the schedule-derived Auto setpoint. -/
theorem boost_expiry_reverts_to_auto (m : ModeManager) (sched : Schedule) (now : DateTime)
    (cOff aOff vSet e : ℚ)
    (hmode : m.current_mode = OperatingMode.boost)
    (hexp : m.boost_expires_at = some e)
    (hge : now.absTime ≥ e) :
    (m.get_effective_setpoint sched now cOff aOff vSet).1.current_mode = OperatingMode.auto ∧
    (m.get_effective_setpoint sched now cOff aOff vSet).1.boost_expires_at = none ∧
    (m.get_effective_setpoint sched now cOff aOff vSet).1.manual_setpoint = none ∧
    (m.get_effective_setpoint sched now cOff aOff vSet).1.previous_mode = m.previous_mode ∧
    (m.get_effective_setpoint sched now cOff aOff vSet).2 =
      sched.get_setpoint_for_time now := by
  unfold ModeManager.get_effective_setpoint
  rw [if_pos hmode, hexp]
  dsimp only
  rw [if_pos hge]
  exact ⟨rfl, rfl, rfl, rfl, rfl⟩

/-- Mode manager in Boost mode at 24 °C with an expiry at absolute time 100,
created for exercising the lazy expiry check. -/
def boostMgr : ModeManager :=
  { current_mode := OperatingMode.boost
    manual_setpoint := some 24
    boost_expires_at := some 100
    previous_mode := some OperatingMode.off }

/-- Weekly schedule with a single all-day weekday block at 21 °C. -/
def sched21 : Schedule :=
  { weekday_blocks := [TimeBlock.mk 0 1440 21]
    weekend_blocks := [] }

/-- Monday 07:00 with absolute time 150 (past the boost expiry at 100). -/
def dt0 : DateTime :=
  { weekday := 0, timeOfDay := 420, absTime := 150 }

/-- Witness for C3: the boost manager queried past its expiry reverts to Auto
and returns the schedule's 21 °C. -/
theorem boost_expiry_reverts_to_auto_witness :
    boostMgr.current_mode = OperatingMode.boost ∧
    boostMgr.boost_expires_at = some 100 ∧
    dt0.absTime ≥ (100 : ℚ) ∧
    ((boostMgr.get_effective_setpoint sched21 dt0 1 (-3) 10).1.current_mode =
        OperatingMode.auto ∧
      (boostMgr.get_effective_setpoint sched21 dt0 1 (-3) 10).1.boost_expires_at = none ∧
      (boostMgr.get_effective_setpoint sched21 dt0 1 (-3) 10).1.manual_setpoint = none ∧
      (boostMgr.get_effective_setpoint sched21 dt0 1 (-3) 10).1.previous_mode =
        boostMgr.previous_mode ∧
      (boostMgr.get_effective_setpoint sched21 dt0 1 (-3) 10).2 =
        sched21.get_setpoint_for_time dt0) ∧
    sched21.get_setpoint_for_time dt0 = some 21 :=
  ⟨rfl, rfl, by decide,
    boost_expiry_reverts_to_auto boostMgr sched21 dt0 1 (-3) 10 100 rfl rfl (by decide),
    by decide⟩

/-- C7: with no pending Boost expiry the effective setpoint follows the mode
table — Auto returns the schedule value, Comfort adds comfort_offset, Away
adds away_offset (schedule no-match propagating as none in all three),
Vacation returns vacation_setpoint, Off returns none, and Manual and Boost
return manual_setpoint verbatim, ignoring the schedule. -/
theorem effective_setpoint_mode_table (m : ModeManager) (sched : Schedule) (now : DateTime)
    (cOff aOff vSet : ℚ)
    (hnb : m.current_mode = OperatingMode.boost →
      ∀ e, m.boost_expires_at = some e → now.absTime < e) :
    (m.current_mode = OperatingMode.auto →
      (m.get_effective_setpoint sched now cOff aOff vSet).2 =
        sched.get_setpoint_for_time now) ∧
    (m.current_mode = OperatingMode.comfort →
      (m.get_effective_setpoint sched now cOff aOff vSet).2 =
        (sched.get_setpoint_for_time now).map (fun x => x + cOff)) ∧
    (m.current_mode = OperatingMode.away →
      (m.get_effective_setpoint sched now cOff aOff vSet).2 =
        (sched.get_setpoint_for_time now).map (fun x => x + aOff)) ∧
    (m.current_mode = OperatingMode.vacation →
      (m.get_effective_setpoint sched now cOff aOff vSet).2 = some vSet) ∧
    (m.current_mode = OperatingMode.off →
      (m.get_effective_setpoint sched now cOff aOff vSet).2 = none) ∧
    (m.current_mode = OperatingMode.manual →
      (m.get_effective_setpoint sched now cOff aOff vSet).2 = m.manual_setpoint) ∧
    (m.current_mode = OperatingMode.boost →
      (m.get_effective_setpoint sched now cOff aOff vSet).2 = m.manual_setpoint) := by
  refine ⟨fun hm => ?_, fun hm => ?_, fun hm => ?_, fun hm => ?_, fun hm => ?_,
    fun hm => ?_, fun hm => ?_⟩
  · simp [ModeManager.get_effective_setpoint, hm]
  · simp [ModeManager.get_effective_setpoint, hm]
  · simp [ModeManager.get_effective_setpoint, hm]
  · simp [ModeManager.get_effective_setpoint, hm]
  · simp [ModeManager.get_effective_setpoint, hm]
  · simp [ModeManager.get_effective_setpoint, hm]
  · rcases hbe : m.boost_expires_at with _ | e
    · simp [ModeManager.get_effective_setpoint, hm, hbe]
    · have hlt := hnb hm e hbe
      simp [ModeManager.get_effective_setpoint, hm, hbe, not_le.mpr hlt]

/-- Mode manager in Auto mode with no boost state. -/
def mgrAuto : ModeManager :=
  { current_mode := OperatingMode.auto
    manual_setpoint := none
    boost_expires_at := none
    previous_mode := none }

/-- Witness for C7: in Auto mode the effective setpoint equals the schedule
value, here 21 °C. -/
theorem effective_setpoint_mode_table_witness :
    mgrAuto.current_mode = OperatingMode.auto ∧
    (mgrAuto.get_effective_setpoint sched21 dt0 1 (-3) 10).2 =
      sched21.get_setpoint_for_time dt0 ∧
    (mgrAuto.get_effective_setpoint sched21 dt0 1 (-3) 10).2 = some 21 :=
  ⟨rfl,
    (effective_setpoint_mode_table mgrAuto sched21 dt0 1 (-3) 10
      (fun hb => absurd hb (by decide))).1 rfl,
    by decide⟩

/-- Realized pump state after set_pump_state is exactly the requested state. -/
theorem set_pump_state_pump_state (z : HC.HeatingZone) (b manual : Bool) (now : ℚ) :
    (z.set_pump_state b manual now).pump_state = b := by
  unfold HC.HeatingZone.set_pump_state
  split <;> rfl

/-- The per-zone tick step reports the zone active whenever its realized pump
state ends the step ON. -/
theorem control_loop_zone_step_active_of_pump (z : HC.HeatingZone) (now : ℚ)
    (h : (z.control_loop_zone_step now).1.pump_state = true) :
    (z.control_loop_zone_step now).2 = true := by
  unfold HC.HeatingZone.control_loop_zone_step at h ⊢
  cases hdw : (z.detect_window_open now).2 with
  | true =>
    cases hzp : (z.detect_window_open now).1.pump_state with
    | true => simp [hdw, hzp, set_pump_state_pump_state] at h
    | false => simp [hdw, hzp] at h
  | false =>
    simp only [hdw, Bool.false_eq_true, if_false] at h ⊢
    rw [h]
    simp

/-- The boiler state after set_boiler_state is the commanded state. -/
theorem set_boiler_state_boiler_active (s : HC.HeatingControl) (a : Bool) (now : ℚ) :
    (s.set_boiler_state a now).boiler_active = a := by
  unfold HC.HeatingControl.set_boiler_state
  split_ifs with h h2
  · exact h.symm
  · rfl
  · rfl

/-- set_boiler_state leaves the zone registry unchanged. -/
theorem set_boiler_state_zones (s : HC.HeatingControl) (a : Bool) (now : ℚ) :
    (s.set_boiler_state a now).zones = s.zones := by
  unfold HC.HeatingControl.set_boiler_state
  split_ifs with h h2
  · rfl
  · rfl
  · rfl

/-- C1 (amended): at the end of a control tick the boiler is commanded ON iff
at least one zone was active during its processing — its realized pump state
is ON at the end of the step, or (window closed) its computed duty cycle
exceeds its pump_duty_on_threshold, a heat request that pump protection may
have refused to realize; in particular any zone whose realized pump state is
ON still forces the boiler ON. -/
theorem boiler_aggregation_spec (s : HC.HeatingControl) (now : ℚ) :
    (s.run_control_loop now).boiler_active =
      s.zones.any (fun p => (HC.HeatingZone.control_loop_zone_step p.2 now).2) ∧
    ∀ q ∈ (s.run_control_loop now).zones, q.2.pump_state = true →
      (s.run_control_loop now).boiler_active = true := by
  have hany : ∀ l : List (String × HC.HeatingZone),
      (l.map (fun p => (p.1, HC.HeatingZone.control_loop_zone_step p.2 now))).any
          (fun p => p.2.2) =
        l.any (fun p => (HC.HeatingZone.control_loop_zone_step p.2 now).2) := by
    intro l
    induction l with
    | nil => rfl
    | cons a t ih => simp only [List.map_cons, List.any_cons, ih]
  have hba : (s.run_control_loop now).boiler_active =
      s.zones.any (fun p => (HC.HeatingZone.control_loop_zone_step p.2 now).2) := by
    unfold HC.HeatingControl.run_control_loop
    dsimp only
    rw [set_boiler_state_boiler_active]
    exact hany s.zones
  refine ⟨hba, fun q hq hpump => ?_⟩
  have hz : (s.run_control_loop now).zones =
      s.zones.map (fun p => (p.1, (HC.HeatingZone.control_loop_zone_step p.2 now).1)) := by
    unfold HC.HeatingControl.run_control_loop
    dsimp only
    rw [set_boiler_state_zones, List.map_map]
    rfl
  rw [hz] at hq
  obtain ⟨p, hp, hpq⟩ := List.mem_map.mp hq
  rw [hba, List.any_eq_true]
  refine ⟨p, hp, ?_⟩
  apply control_loop_zone_step_active_of_pump
  rw [← hpq] at hpump
  exact hpump

/-- Zone whose pump turned off one minute ago (protection blocks turning it
back ON) while the PID demands full heat. -/
def c1zone : HC.HeatingZone :=
  { current_temp := some 18
    outside_temp := none
    setpoint := 20
    temp_history := []
    window_open := false
    window_open_time := none
    window_detection_enabled := false
    window_detection_threshold_1min := 3/10
    window_detection_threshold_2min := 1/5
    pid := HC.PIDController.mk 5 0 0 20 (0, 1) 0 0 70
    pump_state := false
    pump_duty_cycle := 0
    pump_on_time := none
    pump_off_time := some 40
    pump_last_on_time := none
    pump_last_off_time := some 40
    pump_manual_override := false
    pump_cycle_count := 0
    pump_cycle_hour_start := 0
    pump_min_on_minutes := 10
    pump_min_off_minutes := 10
    pump_duty_on_threshold := 3/10
    pump_duty_off_threshold := 1/20 }

/-- Single-zone system around c1zone with the boiler OFF. -/
def c1system : HC.HeatingControl :=
  { zones := [(String.mk ['a'], c1zone)]
    boiler_active := false
    boiler_on_time := none }

/-- C1 counterexample: after the tick at time 100 every zone's realized pump
state is OFF (pump protection blocked the ON request one minute into the
minimum OFF dwell), yet the boiler is commanded ON because the duty cycle
exceeds the ON threshold — refuting boiler ON iff some realized pump is ON. -/
theorem boiler_iff_pump_counterexample :
    (c1system.run_control_loop 100).zones.all (fun p => !p.2.pump_state) = true ∧
    (c1system.run_control_loop 100).boiler_active = true := by
  constructor <;>
    norm_num [HC.HeatingControl.run_control_loop, HC.HeatingControl.set_boiler_state,
      HC.HeatingZone.control_loop_zone_step, HC.HeatingZone.detect_window_open,
      HC.HeatingZone.calculate_control_output, HC.PIDController.update,
      HC.desired_pump_state, HC.HeatingZone.can_change_pump_state,
      HC.HeatingZone.set_pump_state, c1system, c1zone, min_def, max_def]

/-- Zone whose pump is already ON with the PID still demanding heat. -/
def c1wzone : HC.HeatingZone :=
  { current_temp := some 10
    outside_temp := none
    setpoint := 20
    temp_history := []
    window_open := false
    window_open_time := none
    window_detection_enabled := false
    window_detection_threshold_1min := 3/10
    window_detection_threshold_2min := 1/5
    pid := HC.PIDController.mk 5 0 0 20 (0, 1) 0 0 70
    pump_state := true
    pump_duty_cycle := 1
    pump_on_time := some 0
    pump_off_time := none
    pump_last_on_time := some 0
    pump_last_off_time := none
    pump_manual_override := false
    pump_cycle_count := 1
    pump_cycle_hour_start := 0
    pump_min_on_minutes := 10
    pump_min_off_minutes := 10
    pump_duty_on_threshold := 3/10
    pump_duty_off_threshold := 1/20 }

/-- Single-zone system around c1wzone with the boiler OFF. -/
def c1wsys : HC.HeatingControl :=
  { zones := [(String.mk ['w'], c1wzone)]
    boiler_active := false
    boiler_on_time := none }

/-- Witness for C1 (amended): a zone ending the tick with its pump ON forces
the boiler ON. -/
theorem boiler_aggregation_spec_witness :
    (c1wsys.run_control_loop 100).zones.any (fun q => q.2.pump_state) = true ∧
    (c1wsys.run_control_loop 100).boiler_active = true := by
  have h : (c1wsys.run_control_loop 100).zones.any (fun q => q.2.pump_state) = true := by
    norm_num [HC.HeatingControl.run_control_loop, HC.HeatingControl.set_boiler_state,
      HC.HeatingZone.control_loop_zone_step, HC.HeatingZone.detect_window_open,
      HC.HeatingZone.calculate_control_output, HC.PIDController.update,
      HC.desired_pump_state, HC.HeatingZone.can_change_pump_state,
      HC.HeatingZone.set_pump_state, c1wsys, c1wzone, min_def, max_def]
  obtain ⟨q, hq, hpump⟩ := List.any_eq_true.mp h
  exact ⟨h, (boiler_aggregation_spec c1wsys 100).2 q hq (by simpa using hpump)⟩

/-- C4 (amended): the desired pump state submitted to pump protection is ON
exactly when the duty cycle exceeds pump_duty_on_threshold and the pump is
OFF, OFF exactly when the duty cycle is below both thresholds and the pump is
ON, and no request is submitted otherwise (deadband holds the current
state). -/
theorem desired_pump_state_spec (ps : Bool) (duty on_th off_th : ℚ) :
    (HC.desired_pump_state ps duty on_th off_th = some true ↔
      duty > on_th ∧ ps = false) ∧
    (HC.desired_pump_state ps duty on_th off_th = some false ↔
      ¬duty > on_th ∧ duty < off_th ∧ ps = true) ∧
    (HC.desired_pump_state ps duty on_th off_th = none ↔
      ¬(duty > on_th ∧ ps = false) ∧ ¬(¬duty > on_th ∧ duty < off_th ∧ ps = true)) := by
  unfold HC.desired_pump_state
  split_ifs <;> cases ps <;> simp_all

/-- Zone in first-startup state (protection would permit any ON request)
whose PID duty comes out strictly between the OFF and ON thresholds. -/
def c4zone : HC.HeatingZone :=
  { current_temp := some (199/10)
    outside_temp := none
    setpoint := 20
    temp_history := []
    window_open := false
    window_open_time := none
    window_detection_enabled := false
    window_detection_threshold_1min := 3/10
    window_detection_threshold_2min := 1/5
    pid := HC.PIDController.mk 1 0 0 20 (0, 1) 0 0 70
    pump_state := false
    pump_duty_cycle := 0
    pump_on_time := none
    pump_off_time := none
    pump_last_on_time := none
    pump_last_off_time := none
    pump_manual_override := false
    pump_cycle_count := 0
    pump_cycle_hour_start := 0
    pump_min_on_minutes := 10
    pump_min_off_minutes := 10
    pump_duty_on_threshold := 3/10
    pump_duty_off_threshold := 1/20 }

/-- C4 counterexample: with the deployed thresholds a duty cycle of 0.1 > 0
submits no ON request (deadband), and the tick on a first-startup zone (where
protection would have permitted ON) leaves the pump OFF with a positive
computed duty — refuting desired pump state ON exactly when duty > 0. -/
theorem desired_duty_positive_counterexample :
    HC.desired_pump_state false (1/10) (3/10) (1/20) = none ∧
    ((1 : ℚ)/10 > 0) ∧
    c4zone.pump_last_off_time = none ∧
    (c4zone.control_loop_zone_step 100).1.pump_duty_cycle = 1/10 ∧
    (c4zone.control_loop_zone_step 100).1.pump_state = false := by
  refine ⟨by norm_num [HC.desired_pump_state], by norm_num, rfl, ?_, ?_⟩ <;>
    norm_num [HC.HeatingZone.control_loop_zone_step, HC.HeatingZone.detect_window_open,
      HC.HeatingZone.calculate_control_output, HC.PIDController.update,
      HC.desired_pump_state, HC.HeatingZone.can_change_pump_state,
      HC.HeatingZone.set_pump_state, c4zone, min_def, max_def]

/-- Witness for C4 (amended): a duty of 0.5 with the pump OFF submits an ON
request under the deployed thresholds. -/
theorem desired_pump_state_spec_witness :
    HC.desired_pump_state false (1/2) (3/10) (1/20) = some true :=
  (desired_pump_state_spec false (1/2) (3/10) (1/20)).1.mpr ⟨by norm_num, rfl⟩
